import Mathlib

/-!
Shallow embedding of the AIStoryWriter workflow orchestration engine
(`backend/app/services/story_workflow_service.py`,
`backend/app/services/ollama_service.py`,
`backend/app/models/story_models.py`) and proofs about the spec's claims.

Modelling conventions:
* Python floats are modelled as rationals (`ℚ`); the source only compares,
  defaults and parses decimal literals, so this is exact for everything used.
* The external text-generation HTTP service is an oracle: each stage
  operation receives the `ServiceOutcome` of its call(s) as a parameter.
* `json.loads` plus pydantic construction in the two structured-stage
  parsers is abstracted as a decoder parameter `dec`; everything around it
  (brace slicing, fallback control flow) is translated from the source.
* Prompt-building functions only influence the text sent to the external
  service, which is an oracle here, so prompt construction is not modelled;
  likewise the wall-clock timestamps `created_at`/`updated_at`.
* In-place mutation plus exceptions are modelled by `StageResult`: an
  operation either returns the updated workflow (`ok`), raises after having
  possibly mutated the stored workflow (`raised`, carrying the state the
  store is left with), or fails the initial id lookup (`notFound`).
-/

set_option autoImplicit false

namespace StoryWriter

/-! ## Python string primitives used by the service code -/

/-- The character `{` (written via its code point). -/
def lbrace : Char := Char.ofNat 123

/-- The character `}` (written via its code point). -/
def rbrace : Char := Char.ofNat 125

/-- Index of the first occurrence of `c`, or `-1`; models `str.find`. -/
def pyFindChar (cs : List Char) (c : Char) : Int :=
  match cs with
  | [] => -1
  | d :: rest =>
    if d = c then 0
    else
      let r := pyFindChar rest c
      if r = -1 then -1 else r + 1

/-- Index of the last occurrence of `c`, or `-1`; models `str.rfind`. -/
def pyRfindChar (cs : List Char) (c : Char) : Int :=
  match cs with
  | [] => -1
  | d :: rest =>
    let r := pyRfindChar rest c
    if r = -1 then (if d = c then 0 else -1) else r + 1

/-- Strip leading and trailing whitespace; models `str.strip()`. -/
def stripChars (cs : List Char) : List Char :=
  ((cs.dropWhile Char.isWhitespace).reverse.dropWhile Char.isWhitespace).reverse

/-- Split at every newline character; models `str.split("\n")`. -/
def splitLines (cs : List Char) : List (List Char) :=
  match cs with
  | [] => [[]]
  | c :: rest =>
    if c = '\n' then [] :: splitLines rest
    else
      match splitLines rest with
      | [] => [[c]]
      | l :: ls => (c :: l) :: ls

/-- Join line lists with newline characters; models `"\n".join(...)`. -/
def joinLines (ls : List (List Char)) : List Char :=
  match ls with
  | [] => []
  | [l] => l
  | l :: rest => l ++ '\n' :: joinLines rest

/-- Whether `cs` begins with the tag `tag`; models `str.startswith`. -/
def leadsWith (tag cs : List Char) : Bool :=
  decide (cs.take tag.length = tag)

/-- Recursion core of `removeAllTag`. The fuel argument only bounds the
recursion structurally; `fuel = cs.length` always suffices because every
recursive call shrinks the list by at least one character. -/
def removeAllTagAux (tag : List Char) : Nat → List Char → List Char
  | 0, cs => cs
  | _ + 1, [] => []
  | fuel + 1, c :: rest =>
    if tag ≠ [] ∧ (c :: rest).take tag.length = tag then
      removeAllTagAux tag fuel ((c :: rest).drop tag.length)
    else c :: removeAllTagAux tag fuel rest

/-- Remove every (non-overlapping, leftmost-first) occurrence of the
non-empty tag `tag`; models `str.replace(tag, "")`. -/
def removeAllTag (tag : List Char) (cs : List Char) : List Char :=
  removeAllTagAux tag cs.length cs

/-- Number of whitespace-separated words; models `len(str.split())`.
The boolean argument records whether the previous character was inside
a word. -/
def wordCountAux : List Char → Bool → Nat
  | [], _ => 0
  | c :: rest, inWord =>
    if c.isWhitespace then wordCountAux rest false
    else (if inWord then 0 else 1) + wordCountAux rest true

/-- Models `len(s.split())`. -/
def pyWordCount (s : String) : Nat := wordCountAux s.data false

/-- Value of a digit list read in base 10. -/
def digitsVal (cs : List Char) : Nat :=
  cs.foldl (fun n c => 10 * n + (c.toNat - '0'.toNat)) 0

/-- Magnitude part of `float(...)` on plain decimal literals: digits with an
optional single decimal point, at least one digit overall. -/
def pyFloatMag (cs : List Char) : Option ℚ :=
  let ip := cs.takeWhile (fun c => c ≠ '.')
  let rest := cs.dropWhile (fun c => c ≠ '.')
  match rest with
  | [] =>
    if ip ≠ [] ∧ ip.all Char.isDigit then some (digitsVal ip) else none
  | _ :: fp =>
    if (ip ≠ [] ∨ fp ≠ []) ∧ ip.all Char.isDigit ∧ fp.all Char.isDigit then
      some ((digitsVal ip : ℚ) + (digitsVal fp : ℚ) / (10 : ℚ) ^ fp.length)
    else none

/-- Models Python `float(str)` on the decimal-literal subset the service
ever feeds it (optional sign, digits, optional single point); `none`
models the `ValueError` that `float` raises otherwise. -/
def pyFloat (cs : List Char) : Option ℚ :=
  match cs with
  | '-' :: rest => (pyFloatMag rest).map (fun q => -q)
  | '+' :: rest => pyFloatMag rest
  | _ => pyFloatMag cs

/-- Python list indexing `l[i]` with negative-index wraparound; `none`
models `IndexError`. -/
def pyIndexList {α : Type} (l : List α) (i : Int) : Option α :=
  let j := if i < 0 then i + l.length else i
  if 0 ≤ j ∧ j < l.length then l.get? j.toNat else none

/-! ## Data model (`app/models/story_models.py`) -/

/-- `Character` pydantic model. Relationship maps are association lists. -/
structure Character where
  name : String
  description : String
  role : String
  background : Option String := none
  motivations : Option String := none
  relationships : Option (List (String × String)) := none
  deriving DecidableEq, Repr

/-- `StorySettings` pydantic model. -/
structure StorySettings where
  genre : String
  setting : String
  tone : String
  themes : List String := []
  world_building : Option String := none
  target_length : Option String := some "medium"
  deriving DecidableEq, Repr

/-- `ChapterOutline` pydantic model. -/
structure ChapterOutline where
  chapter_number : Int
  title : String
  summary : String
  key_events : List String := []
  characters_involved : List String := []
  purpose : String
  deriving DecidableEq, Repr

/-- `StoryOutline` pydantic model. -/
structure StoryOutline where
  title : String
  premise : String
  plot_structure : String
  chapters : List ChapterOutline := []
  estimated_word_count : Option Int := none
  deriving DecidableEq, Repr

/-- `GeneratedChapter` pydantic model. -/
structure GeneratedChapter where
  chapter_number : Int
  title : String
  outline : String
  dialogue : String
  content : String
  word_count : Nat := 0
  validation_score : Option ℚ := none
  validation_feedback : Option String := none
  deriving DecidableEq, Repr

/-- `WorkflowStep` enum. -/
inductive WorkflowStep where
  | charactersSettings
  | outline
  | chapterGeneration
  | validation
  | completed
  deriving DecidableEq, Repr

/-- Position of a step in the fixed stage order. -/
def stepIndex : WorkflowStep → Nat
  | .charactersSettings => 0
  | .outline => 1
  | .chapterGeneration => 2
  | .validation => 3
  | .completed => 4

/-- `StoryWorkflow` pydantic model (timestamps omitted: wall-clock values
with no logic attached). -/
structure StoryWorkflow where
  id : String
  original_prompt : String
  current_step : WorkflowStep := .charactersSettings
  characters : List Character := []
  settings : Option StorySettings := none
  outline : Option StoryOutline := none
  chapters : List GeneratedChapter := []
  model : Option String := none
  temperature : ℚ := 7 / 10
  top_p : ℚ := 9 / 10
  total_chapters_planned : Nat := 0
  chapters_completed : Nat := 0
  is_complete : Bool := false
  deriving DecidableEq, Repr

/-! ## External text-generation service (`app/services/ollama_service.py`) -/

/-- The HTTP response of one `/api/generate` call: status code, the JSON
`response` field (when present), and the raw body text. -/
structure HttpReply where
  status_code : Nat
  responseField : Option String := none
  text : String := ""
  deriving DecidableEq, Repr

/-- Outcome of one external service call: either an HTTP reply or an
exception from the client (unreachable host, timeout, bad JSON body). -/
inductive ServiceOutcome where
  | ok (reply : HttpReply)
  | exn (msg : String)
  deriving DecidableEq, Repr

/-- `OllamaService.generate_story_complete` (lines 91-134): returns the
reply's `response` field on HTTP 200; otherwise the raised exception is
caught by the function's own handler and converted into the string
`"Error: ..."` which is returned as the completion. -/
def generate_story_complete (outcome : ServiceOutcome) : String :=
  match outcome with
  | .ok r =>
    if r.status_code = 200 then r.responseField.getD ""
    else "Error: " ++ ("Ollama API error: " ++ toString r.status_code ++ " - " ++ r.text)
  | .exn m => "Error: " ++ m

/-- Whether the underlying service call failed (unreachable client or a
non-success HTTP status). -/
def serviceCallFails (outcome : ServiceOutcome) : Bool :=
  match outcome with
  | .ok r => decide (r.status_code ≠ 200)
  | .exn _ => true

/-! ## Response parsing (`StoryWorkflowService._parse_*`) -/

/-- Fallback characters built when characters/settings parsing fails
(lines 716-723). -/
def fallbackCharacters : List Character :=
  [{ name := "Main Character", description := "The protagonist of the story",
     role := "protagonist" }]

/-- Fallback settings built when characters/settings parsing fails
(lines 724-726). -/
def fallbackSettings : StorySettings :=
  { genre := "Fiction", setting := "Contemporary", tone := "Engaging" }

/-- Fallback outline built in the `except` handler of the outline parser
(lines 757-770). -/
def fallbackOutline : StoryOutline :=
  { title := "Untitled Story", premise := "A story premise",
    plot_structure := "Basic three-act structure",
    chapters := [{ chapter_number := 1, title := "Chapter 1",
                   summary := "Opening chapter",
                   purpose := "Introduce the story and characters" }] }

/-- The slice between the first brace and the last closing brace, following
lines 694-698 / 732-736: `start = find(lbrace)`, `end = rfind(rbrace) + 1`,
slice returned when `start != -1 and end != 0`. -/
def braceSlice (response : String) : Option String :=
  let cs := response.data
  let start := pyFindChar cs lbrace
  let stop := pyRfindChar cs rbrace + 1
  if start ≠ -1 ∧ stop ≠ 0 then
    some ⟨(cs.drop start.toNat).take (stop - start).toNat⟩
  else none

/-- `_parse_characters_settings_response` (lines 689-727). `dec` abstracts
`json.loads` plus pydantic `Character`/`StorySettings` construction;
`dec = none` models any exception from that decode, which — like the
`ValueError` raised when no brace pair exists — is caught by the handler
that returns the fallback pair. -/
def parse_characters_settings_response
    (dec : String → Option (List Character × StorySettings))
    (response : String) : List Character × StorySettings :=
  match braceSlice response with
  | some js =>
    match dec js with
    | some r => r
    | none => (fallbackCharacters, fallbackSettings)
  | none => (fallbackCharacters, fallbackSettings)

/-- `_parse_outline_response` (lines 729-770). `dec` abstracts `json.loads`
plus pydantic construction of the outline. When a brace pair exists but the
decode raises, the `except` handler returns the fallback outline; when no
brace pair exists, the `if` is skipped, no exception occurs, and the
function falls through returning Python `None` — modelled by `none`,
despite the annotated return type `StoryOutline`. -/
def parse_outline_response (dec : String → Option StoryOutline)
    (response : String) : Option StoryOutline :=
  match braceSlice response with
  | some js =>
    match dec js with
    | some o => some o
    | none => some fallbackOutline
  | none => none

/-- The tag `"SCORE:"` as a character list. -/
def scoreTag : List Char := "SCORE:".data

/-- The tag `"FEEDBACK:"` as a character list. -/
def feedbackTag : List Char := "FEEDBACK:".data

/-- First index of `l` in `allLines`; models `list.index` (total here:
returns the length when absent, a case the source never reaches because it
only asks for the index of a line taken from the list). -/
def pyLineIndex (allLines : List (List Char)) (l : List Char) : Nat :=
  allLines.findIdx (fun x => decide (x = l))

/-- The scanning loop of `_parse_validation_response` (lines 779-789):
walks the lines, updating the score on each `SCORE:` line (a `float`
failure raises, modelled by `.error`), and on the first `FEEDBACK:` line
builds the feedback from its remainder plus all following lines and breaks.
`allLines` is the full line list (used for `lines.index(line)`). -/
def scanValidation (allLines : List (List Char)) :
    List (List Char) → ℚ → List Char → Except Unit (ℚ × List Char)
  | [], score, feedback => .ok (score, feedback)
  | l :: rest, score, feedback =>
    if leadsWith scoreTag l then
      match pyFloat (stripChars (removeAllTag scoreTag l)) with
      | none => .error ()
      | some v => scanValidation allLines rest v feedback
    else if leadsWith feedbackTag l then
      let fb := stripChars (removeAllTag feedbackTag l)
      let remaining := allLines.drop (pyLineIndex allLines l + 1)
      let fb2 := if remaining ≠ [] then fb ++ '\n' :: joinLines remaining else fb
      .ok (score, fb2)
    else scanValidation allLines rest score feedback

/-- `_parse_validation_response` (lines 772-795): lines of the stripped
reply are scanned with initial score `0.8` and initial feedback equal to
the full raw reply; any exception in the loop yields `(0.7, reply)`. -/
def parse_validation_response (response : String) : ℚ × String :=
  let lines := splitLines (stripChars response.data)
  match scanValidation lines lines (8 / 10) response.data with
  | .ok (score, feedback) => (score, ⟨feedback⟩)
  | .error _ => (7 / 10, response)

/-- Whether some line of the stripped reply starts with `SCORE:` (the
claims' premise "contains a `SCORE:` line", computed over the same line
split the parser uses). -/
def hasScoreLine (response : String) : Bool :=
  (splitLines (stripChars response.data)).any (leadsWith scoreTag)

/-- Whether some line of the stripped reply starts with `FEEDBACK:`. -/
def hasFeedbackLine (response : String) : Bool :=
  (splitLines (stripChars response.data)).any (leadsWith feedbackTag)

/-! ## Stage operations (`StoryWorkflowService`) -/

/-- Exceptions the stage operations can raise past the id lookup. -/
inductive StageError where
  | valueError (msg : String)
  | attributeError
  | indexError
  deriving DecidableEq, Repr

/-- Result of one stage operation: `notFound` models the `ValueError` for
an unknown workflow id (no stored state involved), `raised` models an
exception escaping after the stored workflow was left in state `w`, and
`ok` is normal completion returning the updated stored workflow. -/
inductive StageResult where
  | notFound (msg : String)
  | raised (e : StageError) (w : StoryWorkflow)
  | ok (w : StoryWorkflow)
  deriving DecidableEq, Repr

/-- Whether the operation completed normally. -/
def StageResult.isOk : StageResult → Bool
  | .ok _ => true
  | _ => false

/-- The stored workflow after the operation; `prev` is its state before
(returned unchanged when the id lookup failed before any mutation). -/
def StageResult.state (prev : StoryWorkflow) : StageResult → StoryWorkflow
  | .notFound _ => prev
  | .raised _ w => w
  | .ok w => w

/-- `generate_characters_and_settings` (lines 48-90). The id lookup result
is `w?`; the service reply is `generate_story_complete outcome`; parsing is
total, so past the lookup the stage always completes, storing the parsed
(or fallback) characters and settings and setting the step to `Outline`
with no guard on the current step. -/
def generate_characters_and_settings
    (dec : String → Option (List Character × StorySettings))
    (outcome : ServiceOutcome) (w? : Option StoryWorkflow) : StageResult :=
  match w? with
  | none => .notFound "Workflow not found"
  | some w =>
    let response := generate_story_complete outcome
    let cs := parse_characters_settings_response dec response
    .ok { w with characters := cs.1, settings := some cs.2,
                 current_step := WorkflowStep.outline }

/-- `generate_outline` (lines 92-138). Requires non-empty characters and
populated settings (`ValueError` otherwise). When the outline parser falls
through with Python `None` (no brace pair in the reply), line 125 has
already stored `outline = None` before line 126 raises `AttributeError` on
`len(None.chapters)`; otherwise the parsed outline is stored, the planned
total is set and the step becomes `ChapterGeneration` — again with no
guard on the current step and no check that an outline already exists. -/
def generate_outline (dec : String → Option StoryOutline)
    (outcome : ServiceOutcome) (w? : Option StoryWorkflow) : StageResult :=
  match w? with
  | none => .notFound "Workflow not found"
  | some w =>
    if w.characters = [] ∨ w.settings = none then
      .raised (.valueError "Characters and settings must be generated first") w
    else
      let response := generate_story_complete outcome
      match parse_outline_response dec response with
      | some outline =>
        .ok { w with outline := some outline,
                     total_chapters_planned := outline.chapters.length,
                     current_step := WorkflowStep.chapterGeneration }
      | none => .raised .attributeError { w with outline := none }

/-- Index of the first stored chapter with the given number; models the
`next((i for i, ch in enumerate(workflow.chapters) if ...), None)` lookup
of lines 186-193. -/
def findChapterIdx : List GeneratedChapter → Int → Option Nat
  | [], _ => none
  | ch :: rest, n =>
    if ch.chapter_number = n then some 0
    else (findChapterIdx rest n).map (· + 1)

/-- First stored chapter with the given number; models
`next((ch for ch in workflow.chapters if ...), None)`. -/
def findChapter : List GeneratedChapter → Int → Option GeneratedChapter
  | [], _ => none
  | ch :: rest, n => if ch.chapter_number = n then some ch else findChapter rest n

/-- The `GeneratedChapter` built by `generate_chapter` (lines 176-183):
the three sub-generation replies plus a whitespace word count of the final
content; no validation data yet. -/
def generatedChapterOf (o1 o2 o3 : ServiceOutcome) (chapter_outline : ChapterOutline)
    (chapter_number : Int) : GeneratedChapter :=
  { chapter_number := chapter_number,
    title := chapter_outline.title,
    outline := generate_story_complete o1,
    dialogue := generate_story_complete o2,
    content := generate_story_complete o3,
    word_count := pyWordCount (generate_story_complete o3) }

/-- `generate_chapter` (lines 140-213). Requires an outline; raises
`ValueError` only when `chapter_number > len(outline.chapters)` — there is
no lower bound, so `0` and small negative numbers reach the Python
negative indexing of line 157 (`IndexError` only below `-len`). The three
sub-generation calls receive outcomes `o1`-`o3`; their results never raise
(`generate_story_complete` is total), after which the chapter is stored:
replacing in place when the number already exists, else appended with
`chapters_completed` incremented. -/
def generate_chapter (o1 o2 o3 : ServiceOutcome)
    (w? : Option StoryWorkflow) (chapter_number : Int) : StageResult :=
  match w? with
  | none => .notFound "Workflow not found"
  | some w =>
    match w.outline with
    | none => .raised (.valueError "Story outline must be generated first") w
    | some outl =>
      if chapter_number > (outl.chapters.length : Int) then
        .raised (.valueError "Chapter not found in outline") w
      else
        match pyIndexList outl.chapters (chapter_number - 1) with
        | none => .raised .indexError w
        | some chapter_outline =>
          let generated := generatedChapterOf o1 o2 o3 chapter_outline
            chapter_number
          match findChapterIdx w.chapters chapter_number with
          | some i => .ok { w with chapters := w.chapters.set i generated }
          | none =>
            .ok { w with chapters := w.chapters ++ [generated],
                         chapters_completed := w.chapters_completed + 1 }

/-- The sampling parameters of one text-generation request. -/
structure ServiceRequest where
  model : Option String
  temperature : ℚ
  top_p : ℚ
  deriving DecidableEq, Repr

/-- Request parameters used by the generation stages (lines 63-69, 113-119,
572-578, 603-609, 651-657): model, temperature and top_p captured on the
workflow. -/
def storyStageRequest (w : StoryWorkflow) : ServiceRequest :=
  { model := w.model, temperature := w.temperature, top_p := w.top_p }

/-- Request parameters of the validation call (lines 419-425): the
temperature is the fixed literal `0.3`, the rest comes from the
workflow. -/
def validateChapterRequest (w : StoryWorkflow) : ServiceRequest :=
  { model := w.model, temperature := 3 / 10, top_p := w.top_p }

/-- `validate_chapter` (lines 396-445). Requires the chapter to exist
(`ValueError`), then indexes `workflow.outline.chapters[chapter_number-1]`
outside the `try` (`AttributeError` when the outline is absent,
`IndexError` out of range, Python negative indexing included). The reply
of the temperature-0.3 call is parsed and the score and feedback stored on
the chapter in place, unclamped. -/
def validate_chapter (outcome : ServiceOutcome)
    (w? : Option StoryWorkflow) (chapter_number : Int) : StageResult :=
  match w? with
  | none => .notFound "Workflow not found"
  | some w =>
    match findChapterIdx w.chapters chapter_number with
    | none => .raised (.valueError "Chapter not found") w
    | some i =>
      match w.outline with
      | none => .raised .attributeError w
      | some outl =>
        match pyIndexList outl.chapters (chapter_number - 1) with
        | none => .raised .indexError w
        | some _outline_chapter =>
          match w.chapters.get? i with
          | none => .raised .indexError w
          | some chapter =>
            let response := generate_story_complete outcome
            let sf := parse_validation_response response
            .ok { w with chapters :=
                    w.chapters.set i { chapter with
                      validation_score := some sf.1,
                      validation_feedback := some sf.2 } }

/-! ## Batch generation (`generate_all_chapters_stream`, lines 215-394) -/

/-- One progress event of the batch stream, projected onto the fields the
verified properties concern (`type`/`status`, chapter number, 1-based
position, total pending count, attempt counter, validation score). -/
inductive BatchEvent where
  | batchComplete
  | generating (chapter_number : Int) (current total attempt : Nat)
  | validating (chapter_number : Int) (current total attempt : Nat)
  | chapterCompleted (chapter_number : Int) (score : ℚ) (attempts : Nat)
  | regenerating (chapter_number : Int) (score : ℚ) (attempt : Nat)
  | completedWithWarning (chapter_number : Int) (score : ℚ) (attempts : Nat)
  | retrying (chapter_number : Int) (attempt : Nat)
  | batchError (chapter_number : Int) (attempts : Nat)
  deriving DecidableEq, Repr

/-- The service outcomes consumed by one try of one chapter: the three
sub-generation calls of `generate_chapter` and the validation call. -/
structure AttemptOutcomes where
  gen1 : ServiceOutcome
  gen2 : ServiceOutcome
  gen3 : ServiceOutcome
  validation : ServiceOutcome
  deriving Repr

/-- The inner `while` loop of the batch (lines 258-386) for one pending
chapter `co`. `oracle n a` gives the service outcomes of the try with
`regeneration_attempts = a` for chapter number `n`; `attempts` mirrors
`regeneration_attempts`; `fuel` is only a structural termination bound
(4 suffices from `attempts = 0`: the loop stops once `attempts` would pass
`max_regeneration_attempts = 3`). The result is the emitted events plus
`some finalWorkflow` when the chapter finished (success or warning) or
`none` after a terminal `error` event, which aborts the whole batch. -/
def chapterLoop (oracle : Int → Nat → AttemptOutcomes) (threshold : ℚ)
    (co : ChapterOutline) (current total : Nat) :
    Nat → StoryWorkflow → Nat → List BatchEvent × Option StoryWorkflow
  | 0, w, _ => ([], some w)
  | fuel + 1, w, attempts =>
    if attempts > 3 then ([], some w)
    else
      let n := co.chapter_number
      let oc := oracle n attempts
      let evG := BatchEvent.generating n current total (attempts + 1)
      match generate_chapter oc.gen1 oc.gen2 oc.gen3 (some w) n with
      | StageResult.ok w1 =>
        let evV := BatchEvent.validating n current total (attempts + 1)
        match validate_chapter oc.validation (some w1) n with
        | StageResult.ok w2 =>
          match findChapter w2.chapters n with
          | some chapter =>
            let score := chapter.validation_score.getD 0
            if score ≥ threshold then
              ([evG, evV, BatchEvent.chapterCompleted n score (attempts + 1)],
               some w2)
            else if attempts + 1 ≤ 3 then
              let rest := chapterLoop oracle threshold co current total fuel w2
                (attempts + 1)
              (evG :: evV :: BatchEvent.regenerating n score (attempts + 1)
                 :: rest.1, rest.2)
            else
              ([evG, evV,
                BatchEvent.completedWithWarning n score (attempts + 1)], some w2)
          | none =>
            -- `next(...)` raising `StopIteration` lands in the same
            -- `except` handler as a generation/validation failure.
            if attempts + 1 ≤ 3 then
              let rest := chapterLoop oracle threshold co current total fuel w2
                (attempts + 1)
              (evG :: evV :: BatchEvent.retrying n (attempts + 1) :: rest.1,
               rest.2)
            else ([evG, evV, BatchEvent.batchError n (attempts + 1)], none)
        | rv =>
          let w2 := rv.state w1
          if attempts + 1 ≤ 3 then
            let rest := chapterLoop oracle threshold co current total fuel w2
              (attempts + 1)
            (evG :: evV :: BatchEvent.retrying n (attempts + 1) :: rest.1,
             rest.2)
          else ([evG, evV, BatchEvent.batchError n (attempts + 1)], none)
      | rg =>
        let w1 := rg.state w
        if attempts + 1 ≤ 3 then
          let rest := chapterLoop oracle threshold co current total fuel w1
            (attempts + 1)
          (evG :: BatchEvent.retrying n (attempts + 1) :: rest.1, rest.2)
        else ([evG, BatchEvent.batchError n (attempts + 1)], none)

/-- The outer `for` loop over pending chapters (line 253): processes each
chapter with `chapterLoop` starting at `regeneration_attempts = 0`,
stopping the whole batch when a chapter aborts. -/
def runPending (oracle : Int → Nat → AttemptOutcomes) (threshold : ℚ)
    (total : Nat) :
    List ChapterOutline → Nat → StoryWorkflow →
    List BatchEvent × Option StoryWorkflow
  | [], _, w => ([], some w)
  | co :: rest, current, w =>
    let r := chapterLoop oracle threshold co current total 4 w 0
    match r.2 with
    | none => (r.1, none)
    | some w1 =>
      let r2 := runPending oracle threshold total rest (current + 1) w1
      (r.1 ++ r2.1, r2.2)

/-- The pending set (lines 237-242): outline chapters whose
`chapter_number` is not among the already generated chapters. -/
def pendingChapters (w : StoryWorkflow) (outl : StoryOutline) :
    List ChapterOutline :=
  let existing := w.chapters.map (fun ch => ch.chapter_number)
  outl.chapters.filter (fun co => !(existing.contains co.chapter_number))

/-- `generate_all_chapters_stream` (lines 215-394) as the list of events
the finite stream yields. The two `ValueError`s of lines 222-227 are
surfaced as `.error`; a `none` threshold defaults to
`DEFAULT_VALIDATION_THRESHOLD = 0.7`; an empty pending set yields a single
`complete` event; otherwise the pending chapters run in outline order and
the terminal `complete` event is appended only when no chapter aborted. -/
def generate_all_chapters_stream (oracle : Int → Nat → AttemptOutcomes)
    (validation_threshold : Option ℚ) (w? : Option StoryWorkflow) :
    Except StageError (List BatchEvent) :=
  match w? with
  | none => .error (.valueError "Workflow not found")
  | some w =>
    match w.outline with
    | none => .error (.valueError "Story outline must be generated first")
    | some outl =>
      let threshold := validation_threshold.getD (7 / 10)
      let pending := pendingChapters w outl
      if pending = [] then .ok [BatchEvent.batchComplete]
      else
        let r := runPending oracle threshold pending.length pending 1 w
        match r.2 with
        | some _ => .ok (r.1 ++ [BatchEvent.batchComplete])
        | none => .ok r.1

/-! ## Concrete fixtures used by evaluation theorems -/

/-- A decoder that always fails, modelling `json.loads`/pydantic raising on
the given slice. -/
def decNoneCS : String → Option (List Character × StorySettings) := fun _ => none

/-- An outline decoder that always fails. -/
def decNoneOutline : String → Option StoryOutline := fun _ => none

/-- A successful HTTP 200 reply carrying `resp` in the `response` field. -/
def okReply (resp : String) : ServiceOutcome :=
  .ok { status_code := 200, responseField := some resp }

/-- A one-chapter outline. -/
def outlA : StoryOutline :=
  { title := "Alpha", premise := "p", plot_structure := "three acts",
    chapters := [{ chapter_number := 1, title := "C1", summary := "s",
                   purpose := "open" }] }

/-- A different one-chapter outline. -/
def outlB : StoryOutline :=
  { title := "Beta", premise := "p2", plot_structure := "five acts",
    chapters := [{ chapter_number := 1, title := "D1", summary := "s2",
                   purpose := "open differently" }] }

/-- An outline decoder that always succeeds with `outlB`. -/
def decOutlB : String → Option StoryOutline := fun _ => some outlB

/-- A workflow that has passed the outline stage (reachable state: step
`ChapterGeneration`, characters/settings/outline populated). -/
def wMid : StoryWorkflow :=
  { id := "wf-mid", original_prompt := "a story about a clockmaker",
    characters := fallbackCharacters, settings := some fallbackSettings,
    outline := some outlA, total_chapters_planned := 1,
    current_step := .chapterGeneration }

/-- A freshly created workflow (step `CharactersSettings`, nothing
generated). -/
def wNew : StoryWorkflow :=
  { id := "wf-new", original_prompt := "a story about a clockmaker" }

/-- A generated chapter numbered 1 with no validation data. -/
def chapOne : GeneratedChapter :=
  { chapter_number := 1, title := "C1", outline := "o", dialogue := "d",
    content := "the generated content" }

/-! ## Claim C1 -/

/-- C1 counterexample: the claim says the characters/settings stage is
legal only from `CharactersSettings` and that no operation can move
`current_step` backward. But `generate_characters_and_settings` has no
step guard: run (successfully) on a workflow at `ChapterGeneration`, it
stores `Outline`, a strictly earlier step. -/
theorem c1_counterexample :
    stepIndex ((generate_characters_and_settings decNoneCS
        (okReply "All done.") (some wMid)).state wMid).current_step
      < stepIndex wMid.current_step := by
  decide

/-- C1 amended: no operation guards on `current_step`.
`generate_characters_and_settings` unconditionally sets the step to
`Outline` past the id lookup; `generate_outline` either leaves the step
unchanged (precondition/parse failure) or sets it to `ChapterGeneration`;
`generate_chapter` and `validate_chapter` never change it. Hence the step
moves backward exactly when the characters/settings stage is re-run after
the outline stage. -/
theorem c1_step_assignment
    (dec : String → Option (List Character × StorySettings))
    (dec2 : String → Option StoryOutline) (oc : ServiceOutcome)
    (o1 o2 o3 : ServiceOutcome) (w : StoryWorkflow) (n : Int) :
    ((generate_characters_and_settings dec oc (some w)).state w).current_step
        = WorkflowStep.outline
    ∧ (((generate_outline dec2 oc (some w)).state w).current_step = w.current_step
       ∨ ((generate_outline dec2 oc (some w)).state w).current_step
           = WorkflowStep.chapterGeneration)
    ∧ ((generate_chapter o1 o2 o3 (some w) n).state w).current_step = w.current_step
    ∧ ((validate_chapter oc (some w) n).state w).current_step = w.current_step := by
  refine ⟨rfl, ?_, ?_, ?_⟩
  · simp only [generate_outline]
    split
    · exact Or.inl rfl
    · split
      · exact Or.inr rfl
      · exact Or.inl rfl
  · simp only [generate_chapter]
    split
    · rfl
    · split
      · rfl
      · split
        · rfl
        · split
          · rfl
          · rfl
  · simp only [validate_chapter]
    split
    · rfl
    · split
      · rfl
      · split
        · rfl
        · split
          · rfl
          · rfl

/-! ## Claim C2 -/

/-- C2 counterexample: the claim says that when the text-generation call
fails, a single-stage operation raises to its caller rather than completing
with fabricated content. But `generate_story_complete` converts every
failure into the string `"Error: ..."`, so the characters/settings stage
completes normally, storing the fallback placeholder characters and
settings and advancing the step. -/
theorem c2_counterexample :
    (generate_characters_and_settings decNoneCS
        (ServiceOutcome.exn "Connection refused") (some wNew)).isOk = true
    ∧ generate_characters_and_settings decNoneCS
        (ServiceOutcome.exn "Connection refused") (some wNew)
      = StageResult.ok { wNew with characters := fallbackCharacters,
                                   settings := some fallbackSettings,
                                   current_step := WorkflowStep.outline } :=
  ⟨rfl, rfl⟩

/-- C2 amended: when the service call fails (client exception or
non-success status), `generate_story_complete` returns a string starting
with `"Error: "` instead of raising, and the characters/settings stage
completes normally (no error reaches the caller) with the step advanced
to `Outline`. -/
theorem c2_failure_completes_stage
    (dec : String → Option (List Character × StorySettings))
    (oc : ServiceOutcome) (w : StoryWorkflow)
    (h : serviceCallFails oc = true) :
    (∃ rest, generate_story_complete oc = "Error: " ++ rest)
    ∧ (generate_characters_and_settings dec oc (some w)).isOk = true
    ∧ ((generate_characters_and_settings dec oc (some w)).state w).current_step
        = WorkflowStep.outline := by
  refine ⟨?_, rfl, rfl⟩
  cases oc with
  | exn m => exact ⟨m, rfl⟩
  | ok r =>
    have hne : ¬ r.status_code = 200 := by
      simpa [serviceCallFails] using h
    exact ⟨"Ollama API error: " ++ toString r.status_code ++ " - " ++ r.text,
      by simp [generate_story_complete, hne]⟩

/-- C2 witness: the amended theorem applied to a concrete unreachable
service and a fresh workflow. -/
theorem c2_failure_completes_stage_witness :
    serviceCallFails (ServiceOutcome.exn "Connection refused") = true
    ∧ (generate_characters_and_settings decNoneCS
        (ServiceOutcome.exn "Connection refused") (some wNew)).isOk = true :=
  ⟨rfl, (c2_failure_completes_stage decNoneCS
    (ServiceOutcome.exn "Connection refused") wNew rfl).2.1⟩

/-! ## Claim C3 -/

/-- C3 evaluation at the failing input: the claim (and the spec) say
`generate_chapter` fails with a NotFound-class error for every
`chapter_number` outside `[1, n]` and that no entry absent from the
outline can exist. The code only checks the upper bound: at
`chapter_number = 0` on a one-chapter outline it succeeds via Python
negative indexing and stores a chapter entry numbered `0`. -/
theorem c3_chapter_zero_accepted :
    (generate_chapter (okReply "outline text") (okReply "dialogue text")
        (okReply "chapter content") (some wMid) 0).isOk = true
    ∧ ((generate_chapter (okReply "outline text") (okReply "dialogue text")
        (okReply "chapter content") (some wMid) 0).state wMid).chapters.map
          (fun ch => ch.chapter_number) = [0] :=
  ⟨rfl, rfl⟩

/-! ## Claim C4 -/

/-- C4 counterexample: the claim says a populated outline is immutable for
the workflow's lifetime. But `generate_outline` can be re-run on a
workflow whose outline is already set (it only requires characters and
settings) and overwrites the stored outline with the newly parsed one. -/
theorem c4_counterexample :
    ((generate_outline decOutlB (okReply "\x7b\x7d") (some wMid)).state wMid).outline
      ≠ wMid.outline := by
  decide

/-- C4 amended: the outline is changed only by `generate_outline` — the
characters/settings stage, the chapter stage and the validation stage
never touch it — but `generate_outline` itself may be re-run at any time
after characters/settings exist, overwriting an already-set outline (or
clearing it on the reply-without-braces path). -/
theorem c4_outline_frame
    (dec : String → Option (List Character × StorySettings))
    (oc : ServiceOutcome) (o1 o2 o3 : ServiceOutcome)
    (w : StoryWorkflow) (n : Int) :
    ((generate_characters_and_settings dec oc (some w)).state w).outline = w.outline
    ∧ ((generate_chapter o1 o2 o3 (some w) n).state w).outline = w.outline
    ∧ ((validate_chapter oc (some w) n).state w).outline = w.outline := by
  refine ⟨rfl, ?_, ?_⟩
  · simp only [generate_chapter]
    split
    · rfl
    · split
      · rfl
      · split
        · rfl
        · split
          · rfl
          · rfl
  · simp only [validate_chapter]
    split
    · rfl
    · split
      · rfl
      · split
        · rfl
        · split
          · rfl
          · rfl

/-! ## Claim C5 -/

/-- C5 evaluation at the failing input: the claim says both structured
parsers return their documented fallback on garbage. The characters/
settings parser does; but on a reply containing no brace pair the outline
parser falls through its `try` without returning, yielding Python `None`
(no value) instead of the placeholder outline — contradicting its own
annotated return type. -/
theorem c5_parser_fallback_eval :
    parse_outline_response decNoneOutline "I cannot produce structured output."
      = none
    ∧ parse_characters_settings_response decNoneCS
        "I cannot produce structured output."
      = (fallbackCharacters, fallbackSettings) :=
  ⟨rfl, rfl⟩

/-! ## Claim C10 -/

/-- A workflow created with a low configured temperature `0.2`. -/
def wCool : StoryWorkflow :=
  { id := "wf-cool", original_prompt := "p", temperature := 1 / 5 }

/-- C10 counterexample: the claim says validation always calls the
service with a temperature strictly lower than the workflow's configured
generation temperature. The validation temperature is the fixed literal
`0.3`; on a workflow configured with temperature `0.2` it is not lower. -/
theorem c10_counterexample :
    ¬ ((validateChapterRequest wCool).temperature
        < (storyStageRequest wCool).temperature) := by
  have h1 : (validateChapterRequest wCool).temperature = 3 / 10 := rfl
  have h2 : (storyStageRequest wCool).temperature = 1 / 5 := rfl
  rw [h1, h2]
  norm_num

/-- C10 amended: the validation call always uses the fixed temperature
`0.3`, regardless of the workflow's configuration (the generation stages
use the configured temperature); it is strictly lower than the configured
temperature exactly when that temperature exceeds `0.3` — which holds for
the default `0.7` but for no configuration at or below `0.3`. -/
theorem c10_validation_temperature (w : StoryWorkflow)
    (h : 3 / 10 < w.temperature) :
    (validateChapterRequest w).temperature = 3 / 10
    ∧ (storyStageRequest w).temperature = w.temperature
    ∧ (validateChapterRequest w).temperature
        < (storyStageRequest w).temperature :=
  ⟨rfl, rfl, h⟩

/-- C10 witness: the amended theorem applied at the default configured
temperature `0.7`. -/
theorem c10_validation_temperature_witness :
    (validateChapterRequest wNew).temperature
      < (storyStageRequest wNew).temperature :=
  (c10_validation_temperature wNew
    (show (3 / 10 : ℚ) < 7 / 10 by norm_num)).2.2

/-! ## Validation-parser lemmas shared by C6 and C9 -/

/-- A `Bool.any` that is `false` is `false` on every member. -/
lemma any_false_forall {α : Type} (p : α → Bool) :
    ∀ (l : List α), l.any p = false → ∀ x ∈ l, p x = false := by
  intro l
  induction l with
  | nil => exact fun _ x hx => absurd hx (List.not_mem_nil x)
  | cons a rest ih =>
    intro h x hx
    rw [List.any_cons] at h
    rcases List.mem_cons.mp hx with rfl | hx2
    · cases hpa : p x
      · rfl
      · rw [hpa] at h; simp at h
    · refine ih ?_ x hx2
      cases hr : rest.any p
      · rfl
      · rw [hr] at h; simp at h

/-- If no line of `ls` starts with `SCORE:`, the scan keeps the incoming
score, and additionally keeps the incoming feedback when no line starts
with `FEEDBACK:` either. -/
lemma scanValidation_no_score (allLines : List (List Char)) :
    ∀ (ls : List (List Char)) (q : ℚ) (fb : List Char),
      (∀ l ∈ ls, leadsWith scoreTag l = false) →
      ∃ fb2, scanValidation allLines ls q fb = .ok (q, fb2)
        ∧ ((∀ l ∈ ls, leadsWith feedbackTag l = false) → fb2 = fb) := by
  intro ls
  induction ls with
  | nil => exact fun q fb _ => ⟨fb, rfl, fun _ => rfl⟩
  | cons l rest ih =>
    intro q fb h
    have hl : leadsWith scoreTag l = false := h l (List.mem_cons_self _ _)
    by_cases hf : leadsWith feedbackTag l = true
    · refine ⟨if (allLines.drop (pyLineIndex allLines l + 1)) ≠ [] then
          stripChars (removeAllTag feedbackTag l)
            ++ '\n' :: joinLines (allLines.drop (pyLineIndex allLines l + 1))
        else stripChars (removeAllTag feedbackTag l), ?_, ?_⟩
      · simp only [scanValidation, hl, Bool.false_eq_true, if_false, hf, if_true]
      · intro hall
        exact absurd (hall l (List.mem_cons_self _ _)) (by simp [hf])
    · obtain ⟨fb2, hok, hkeep⟩ :=
        ih q fb (fun x hx => h x (List.mem_cons_of_mem _ hx))
      refine ⟨fb2, ?_,
        fun hall => hkeep (fun x hx => hall x (List.mem_cons_of_mem _ hx))⟩
      simp only [Bool.not_eq_true] at hf
      simp only [scanValidation, hl, hf, Bool.false_eq_true, if_false]
      exact hok

/-- Every score the scan returns is either the incoming score or the float
parsed from some `SCORE:` line of the scanned lines. -/
lemma scanValidation_score_source (allLines : List (List Char)) :
    ∀ (ls : List (List Char)) (q : ℚ) (fb : List Char) (q2 : ℚ)
      (fb2 : List Char),
      scanValidation allLines ls q fb = .ok (q2, fb2) →
      q2 = q ∨ ∃ l ∈ ls, leadsWith scoreTag l = true
        ∧ pyFloat (stripChars (removeAllTag scoreTag l)) = some q2 := by
  intro ls
  induction ls with
  | nil =>
    intro q fb q2 fb2 h
    simp only [scanValidation, Except.ok.injEq, Prod.mk.injEq] at h
    exact Or.inl h.1.symm
  | cons l rest ih =>
    intro q fb q2 fb2 h
    by_cases hs : leadsWith scoreTag l = true
    · simp only [scanValidation, hs, if_true] at h
      cases hp : pyFloat (stripChars (removeAllTag scoreTag l)) with
      | none => rw [hp] at h; exact absurd h (by simp)
      | some v =>
        rw [hp] at h
        rcases ih v fb q2 fb2 h with hq | ⟨l2, hl2, hlead, hfl⟩
        · exact Or.inr ⟨l, List.mem_cons_self _ _, hs, by rw [hp, hq]⟩
        · exact Or.inr ⟨l2, List.mem_cons_of_mem _ hl2, hlead, hfl⟩
    · simp only [Bool.not_eq_true] at hs
      by_cases hf : leadsWith feedbackTag l = true
      · simp only [scanValidation, hs, Bool.false_eq_true, if_false, hf,
          if_true, Except.ok.injEq, Prod.mk.injEq] at h
        exact Or.inl h.1.symm
      · simp only [Bool.not_eq_true] at hf
        simp only [scanValidation, hs, hf, Bool.false_eq_true, if_false] at h
        rcases ih q fb q2 fb2 h with hq | ⟨l2, hl2, hlead, hfl⟩
        · exact Or.inl hq
        · exact Or.inr ⟨l2, List.mem_cons_of_mem _ hl2, hlead, hfl⟩

/-! ## Claim C6 -/

/-- A validation reply with no `SCORE:` line and no `FEEDBACK:` line. -/
def replyNoScore : String := "The scene flows well and the pacing is strong."

/-- C6 counterexample: the claim says a reply with no `SCORE:` line
parses to the default score `0.7`. On such a reply the loop finishes
without raising, so the first-fallback default `0.8` is returned (with the
full raw reply as feedback); `0.7` arises only on the exception path. -/
theorem c6_counterexample :
    hasScoreLine replyNoScore = false
    ∧ parse_validation_response replyNoScore = (8 / 10, replyNoScore)
    ∧ (8 / 10 : ℚ) ≠ 7 / 10 :=
  ⟨rfl, rfl, by norm_num⟩

/-- C6 amended: a reply with no `SCORE:` line parses to score `0.8` (the
`0.7` default belongs to the exception path only), and when it has no
`FEEDBACK:` line either, the feedback is the full raw reply. -/
theorem c6_no_score_defaults (s : String) (h : hasScoreLine s = false) :
    (parse_validation_response s).1 = 8 / 10
    ∧ (hasFeedbackLine s = false → parse_validation_response s = (8 / 10, s)) := by
  have h' : ∀ l ∈ splitLines (stripChars s.data), leadsWith scoreTag l = false :=
    any_false_forall _ _ h
  obtain ⟨fb2, hok, hkeep⟩ :=
    scanValidation_no_score (splitLines (stripChars s.data))
      (splitLines (stripChars s.data)) (8 / 10) s.data h'
  constructor
  · simp only [parse_validation_response, hok]
  · intro hf
    have hf' : ∀ l ∈ splitLines (stripChars s.data),
        leadsWith feedbackTag l = false := any_false_forall _ _ hf
    have hfb : fb2 = s.data := hkeep hf'
    simp only [parse_validation_response, hok, hfb]

/-- C6 witness: the amended theorem applied to a concrete reply without a
`SCORE:` line. -/
theorem c6_no_score_defaults_witness :
    hasScoreLine "Nice work overall." = false
    ∧ (parse_validation_response "Nice work overall.").1 = 8 / 10 :=
  ⟨rfl, (c6_no_score_defaults "Nice work overall." rfl).1⟩

/-! ## Claim C9 -/

/-- A validation reply whose `SCORE:` line carries the out-of-range value
`5.0`. -/
def replyScoreFive : String := "SCORE: 5.0\nFEEDBACK: weak"

/-- A mid-stage workflow holding the generated chapter 1, ready for
validation. -/
def wChap : StoryWorkflow := { wMid with chapters := [chapOne] }

/-- C9 counterexample: the claim says every validation score stored on a
chapter lies in `[0,1]`. The parser converts the text after `SCORE:` with
`float(...)` and `validate_chapter` stores it unclamped, so the reply
`"SCORE: 5.0"` stores the score `5`, outside `[0,1]`. -/
theorem c9_counterexample :
    ((validate_chapter (okReply replyScoreFive) (some wChap) 1).state wChap).chapters.map
        (fun ch => ch.validation_score) = [some 5]
    ∧ ¬ ((5 : ℚ) ≤ 1) := by
  constructor
  · have h : ((validate_chapter (okReply replyScoreFive) (some wChap) 1).state
        wChap).chapters.map (fun ch => ch.validation_score)
        = [some ((digitsVal ['5'] : ℚ) + (digitsVal ['0'] : ℚ) / 10 ^ 1)] := rfl
    have h5 : digitsVal ['5'] = 5 := rfl
    have h0 : digitsVal ['0'] = 0 := rfl
    rw [h, h5, h0]
    norm_num
  · norm_num

/-- C9 amended: the score stored by validation is the raw parse result,
unclamped: it is either one of the fixed defaults `0.8` / `0.7` (both in
`[0,1]`) or exactly the float parsed from a `SCORE:` line of the reply —
so it lies in `[0,1]` only when the reply's `SCORE:` value does. -/
theorem c9_score_source (s : String) :
    (parse_validation_response s).1 = 8 / 10
    ∨ (parse_validation_response s).1 = 7 / 10
    ∨ ∃ l ∈ splitLines (stripChars s.data), leadsWith scoreTag l = true
        ∧ pyFloat (stripChars (removeAllTag scoreTag l))
            = some (parse_validation_response s).1 := by
  rcases hscan : scanValidation (splitLines (stripChars s.data))
      (splitLines (stripChars s.data)) (8 / 10) s.data with e | ⟨q2, fb2⟩
  · refine Or.inr (Or.inl ?_)
    simp only [parse_validation_response, hscan]
  · have hres : (parse_validation_response s).1 = q2 := by
      simp only [parse_validation_response, hscan]
    rcases scanValidation_score_source (splitLines (stripChars s.data))
        (splitLines (stripChars s.data)) (8 / 10) s.data q2 fb2 hscan with
      hq | ⟨l, hl, hlead, hfl⟩
    · exact Or.inl (by rw [hres, hq])
    · exact Or.inr (Or.inr ⟨l, hl, hlead, by rw [hres]; exact hfl⟩)

/-! ## Lemmas about the chapter lookup, shared by C8 and C7 -/

/-- A stored chapter with the requested number makes the index lookup
succeed. -/
lemma findChapterIdx_some_of_mem :
    ∀ (chs : List GeneratedChapter) (n : Int) (ch : GeneratedChapter),
      ch ∈ chs → ch.chapter_number = n → ∃ j, findChapterIdx chs n = some j := by
  intro chs
  induction chs with
  | nil => exact fun n ch hmem _ => absurd hmem (List.not_mem_nil ch)
  | cons c rest ih =>
    intro n ch hmem hn
    by_cases hc : c.chapter_number = n
    · exact ⟨0, by simp [findChapterIdx, hc]⟩
    · rcases List.mem_cons.mp hmem with rfl | hmem2
      · exact absurd hn hc
      · obtain ⟨j, hj⟩ := ih n ch hmem2 hn
        exact ⟨j + 1, by simp [findChapterIdx, hc, hj]⟩

/-- The element at a successful index lookup carries the requested
number. -/
lemma findChapterIdx_get :
    ∀ (chs : List GeneratedChapter) (n : Int) (j : Nat),
      findChapterIdx chs n = some j →
      ∃ ch, chs.get? j = some ch ∧ ch.chapter_number = n := by
  intro chs
  induction chs with
  | nil => intro n j h; simp [findChapterIdx] at h
  | cons c rest ih =>
    intro n j h
    by_cases hc : c.chapter_number = n
    · rw [show findChapterIdx (c :: rest) n = some 0 by
        simp [findChapterIdx, hc]] at h
      cases h
      exact ⟨c, rfl, hc⟩
    · simp only [findChapterIdx, hc, if_false] at h
      cases hrec : findChapterIdx rest n with
      | none => rw [hrec] at h; cases h
      | some j0 =>
        rw [hrec] at h
        simp at h
        obtain ⟨ch, h1, h2⟩ := ih n j0 hrec
        exact ⟨ch, by rw [← h]; simpa using h1, h2⟩

/-- Setting position `j` to an element with the same image under `f`
leaves the mapped list unchanged. -/
lemma map_set_same {α β : Type} (f : α → β) :
    ∀ (l : List α) (j : Nat) (x : α),
      (∀ y, l.get? j = some y → f y = f x) →
      (l.set j x).map f = l.map f := by
  intro l
  induction l with
  | nil => intro j x _; simp
  | cons a rest ih =>
    intro j x h
    cases j with
    | zero =>
      have : f a = f x := h a rfl
      simp [List.set, this]
    | succ j0 =>
      have := ih j0 x (fun y hy => h y (by simpa using hy))
      simp [List.set, this]

/-! ## Claim C8 -/

/-- C8: regenerating a chapter whose number already exists in
`workflow.chapters` replaces the entry in place at the same position: the
operation succeeds, the multiset of chapter numbers (hence the length and
their uniqueness) is unchanged, `chapters_completed` is not incremented,
and every entry with a different chapter number is untouched. -/
theorem c8_regenerate_in_place (o1 o2 o3 : ServiceOutcome)
    (w : StoryWorkflow) (outl : StoryOutline) (n : Int) (co : ChapterOutline)
    (ch0 : GeneratedChapter)
    (hout : w.outline = some outl)
    (hle : ¬ (n > (outl.chapters.length : Int)))
    (hidx : pyIndexList outl.chapters (n - 1) = some co)
    (hmem : ch0 ∈ w.chapters) (hn : ch0.chapter_number = n) :
    ∃ w2, generate_chapter o1 o2 o3 (some w) n = StageResult.ok w2
      ∧ w2.chapters.length = w.chapters.length
      ∧ w2.chapters.map (fun ch => ch.chapter_number)
          = w.chapters.map (fun ch => ch.chapter_number)
      ∧ w2.chapters_completed = w.chapters_completed
      ∧ ∀ (i : Nat) (ch : GeneratedChapter), w.chapters.get? i = some ch →
          ch.chapter_number ≠ n → w2.chapters.get? i = w.chapters.get? i := by
  obtain ⟨j, hj⟩ := findChapterIdx_some_of_mem w.chapters n ch0 hmem hn
  obtain ⟨chj, hchj, hchjn⟩ := findChapterIdx_get w.chapters n j hj
  have key : generate_chapter o1 o2 o3 (some w) n
      = StageResult.ok { w with chapters :=
                           w.chapters.set j (generatedChapterOf o1 o2 o3 co n) } := by
    simp only [generate_chapter, hout, hidx, hj]
    rw [if_neg hle]
  refine ⟨_, key, ?_, ?_, ?_, ?_⟩
  · simp [List.length_set]
  · refine map_set_same _ w.chapters j _ (fun y hy => ?_)
    rw [hchj] at hy
    cases hy
    exact hchjn
  · rfl
  · intro i ch hi hne
    have hij : j ≠ i := by
      intro hji
      rw [hji, hi] at hchj
      cases hchj
      exact hne hchjn
    exact List.get?_set_ne _ w.chapters hij

/-- C8 witness: regenerating chapter 1 on a workflow that already holds a
generated chapter 1 keeps one chapter and the completion counter. -/
theorem c8_regenerate_in_place_witness :
    ∃ w2, generate_chapter (okReply "o2") (okReply "d2") (okReply "c2")
        (some wChap) 1 = StageResult.ok w2
      ∧ w2.chapters.length = 1
      ∧ w2.chapters_completed = wChap.chapters_completed := by
  obtain ⟨w2, hok, hlen, _, hcc, _⟩ :=
    c8_regenerate_in_place (okReply "o2") (okReply "d2") (okReply "c2")
      wChap outlA 1 { chapter_number := 1, title := "C1", summary := "s",
                      purpose := "open" } chapOne
      rfl (by decide) rfl (by simp [wChap, wMid, chapOne]) rfl
  exact ⟨w2, hok, by rw [hlen]; rfl, hcc⟩

/-! ## Batch-loop lemmas for C7 -/

/-- A failing `generate_chapter` leaves the stored workflow untouched
(every raise in it happens before any mutation). -/
lemma generate_chapter_fail_state (o1 o2 o3 : ServiceOutcome)
    (w : StoryWorkflow) (n : Int)
    (h : (generate_chapter o1 o2 o3 (some w) n).isOk = false) :
    (generate_chapter o1 o2 o3 (some w) n).state w = w := by
  revert h
  simp only [generate_chapter]
  split
  · intro _; rfl
  · split
    · intro _; rfl
    · split
      · intro _; rfl
      · split
        · intro h; simp [StageResult.isOk] at h
        · intro h; simp [StageResult.isOk] at h

/-- One iteration of the inner batch loop when the chapter generation of
this attempt fails: the `generating` event is followed by `retrying` and
another attempt while attempts remain, else by the terminal `error`. -/
lemma chapterLoop_fail_step (oracle : Int → Nat → AttemptOutcomes)
    (threshold : ℚ) (co : ChapterOutline) (current total fuel attempts : Nat)
    (w : StoryWorkflow) (hA : ¬ attempts > 3)
    (hfail : (generate_chapter (oracle co.chapter_number attempts).gen1
        (oracle co.chapter_number attempts).gen2
        (oracle co.chapter_number attempts).gen3
        (some w) co.chapter_number).isOk = false) :
    chapterLoop oracle threshold co current total (fuel + 1) w attempts =
      if attempts + 1 ≤ 3 then
        (BatchEvent.generating co.chapter_number current total (attempts + 1)
           :: BatchEvent.retrying co.chapter_number (attempts + 1)
           :: (chapterLoop oracle threshold co current total fuel w (attempts + 1)).1,
         (chapterLoop oracle threshold co current total fuel w (attempts + 1)).2)
      else ([BatchEvent.generating co.chapter_number current total (attempts + 1),
             BatchEvent.batchError co.chapter_number (attempts + 1)], none) := by
  have hstate := generate_chapter_fail_state
    (oracle co.chapter_number attempts).gen1
    (oracle co.chapter_number attempts).gen2
    (oracle co.chapter_number attempts).gen3 w co.chapter_number hfail
  simp only [chapterLoop]
  rw [if_neg hA]
  cases hg : generate_chapter (oracle co.chapter_number attempts).gen1
      (oracle co.chapter_number attempts).gen2
      (oracle co.chapter_number attempts).gen3
      (some w) co.chapter_number with
  | ok w1 => rw [hg] at hfail; simp [StageResult.isOk] at hfail
  | raised e u =>
    rw [hg] at hstate
    simp only [StageResult.state] at hstate
    subst hstate
    rfl
  | notFound m => rfl

/-- The event block the batch emits for a chapter whose generation fails at
all four tries. -/
def failBlock (n : Int) (current total : Nat) : List BatchEvent :=
  [BatchEvent.generating n current total 1, BatchEvent.retrying n 1,
   BatchEvent.generating n current total 2, BatchEvent.retrying n 2,
   BatchEvent.generating n current total 3, BatchEvent.retrying n 3,
   BatchEvent.generating n current total 4, BatchEvent.batchError n 4]

/-- A chapter whose generation fails on every attempt drains all four
tries, emits exactly `failBlock`, and aborts the batch. -/
lemma chapterLoop_allFail (oracle : Int → Nat → AttemptOutcomes)
    (threshold : ℚ) (co : ChapterOutline) (current total : Nat)
    (w : StoryWorkflow)
    (hfail : ∀ a : Nat, (generate_chapter (oracle co.chapter_number a).gen1
        (oracle co.chapter_number a).gen2 (oracle co.chapter_number a).gen3
        (some w) co.chapter_number).isOk = false) :
    chapterLoop oracle threshold co current total 4 w 0 =
      (failBlock co.chapter_number current total, none) := by
  have e0 : chapterLoop oracle threshold co current total 4 w 0
      = (BatchEvent.generating co.chapter_number current total 1
           :: BatchEvent.retrying co.chapter_number 1
           :: (chapterLoop oracle threshold co current total 3 w 1).1,
         (chapterLoop oracle threshold co current total 3 w 1).2) := by
    have h := chapterLoop_fail_step oracle threshold co current total 3 0 w
      (by omega) (hfail 0)
    rw [if_pos (by omega)] at h
    exact h
  have e1 : chapterLoop oracle threshold co current total 3 w 1
      = (BatchEvent.generating co.chapter_number current total 2
           :: BatchEvent.retrying co.chapter_number 2
           :: (chapterLoop oracle threshold co current total 2 w 2).1,
         (chapterLoop oracle threshold co current total 2 w 2).2) := by
    have h := chapterLoop_fail_step oracle threshold co current total 2 1 w
      (by omega) (hfail 1)
    rw [if_pos (by omega)] at h
    exact h
  have e2 : chapterLoop oracle threshold co current total 2 w 2
      = (BatchEvent.generating co.chapter_number current total 3
           :: BatchEvent.retrying co.chapter_number 3
           :: (chapterLoop oracle threshold co current total 1 w 3).1,
         (chapterLoop oracle threshold co current total 1 w 3).2) := by
    have h := chapterLoop_fail_step oracle threshold co current total 1 2 w
      (by omega) (hfail 2)
    rw [if_pos (by omega)] at h
    exact h
  have e3 : chapterLoop oracle threshold co current total 1 w 3
      = ([BatchEvent.generating co.chapter_number current total 4,
          BatchEvent.batchError co.chapter_number 4], none) := by
    have h := chapterLoop_fail_step oracle threshold co current total 0 3 w
      (by omega) (hfail 3)
    rw [if_neg (by omega)] at h
    exact h
  rw [e0, e1, e2, e3]
  rfl

/-- The inner batch loop never emits the terminal `complete` event. -/
lemma chapterLoop_no_complete (oracle : Int → Nat → AttemptOutcomes)
    (threshold : ℚ) (co : ChapterOutline) (current total : Nat) :
    ∀ (fuel : Nat) (w : StoryWorkflow) (attempts : Nat),
      BatchEvent.batchComplete
        ∉ (chapterLoop oracle threshold co current total fuel w attempts).1 := by
  intro fuel
  induction fuel with
  | zero => intro w a; simp [chapterLoop]
  | succ fuel ih =>
    intro w a
    simp only [chapterLoop]
    split
    · simp
    · split
      · split
        · split
          · split
            · simp
            · split
              · simp [ih]
              · simp
          · split
            · simp [ih]
            · simp
        · split
          · simp [ih]
          · simp
      · split
        · simp [ih]
        · simp

/-- The outer batch loop over pending chapters never emits the terminal
`complete` event either (it is appended only at the top level). -/
lemma runPending_no_complete (oracle : Int → Nat → AttemptOutcomes)
    (threshold : ℚ) (total : Nat) :
    ∀ (chs : List ChapterOutline) (current : Nat) (w : StoryWorkflow),
      BatchEvent.batchComplete
        ∉ (runPending oracle threshold total chs current w).1 := by
  intro chs
  induction chs with
  | nil => intro cur w; simp [runPending]
  | cons co rest ih =>
    intro cur w
    simp only [runPending]
    split
    · simpa using chapterLoop_no_complete oracle threshold co cur total 4 w 0
    · next w1 _ =>
      intro hmem
      rw [List.mem_append] at hmem
      rcases hmem with hmem | hmem
      · exact chapterLoop_no_complete oracle threshold co cur total 4 w 0 hmem
      · exact ih (cur + 1) w1 hmem

/-- `runPending` on a cons whose head chapter aborts. -/
lemma runPending_cons_none (oracle : Int → Nat → AttemptOutcomes)
    (threshold : ℚ) (total : Nat) (co : ChapterOutline)
    (rest : List ChapterOutline) (cur : Nat) (w : StoryWorkflow)
    (hc : (chapterLoop oracle threshold co cur total 4 w 0).2 = none) :
    runPending oracle threshold total (co :: rest) cur w
      = ((chapterLoop oracle threshold co cur total 4 w 0).1, none) := by
  simp only [runPending, hc]

/-- `runPending` on a cons whose head chapter finishes with state
`wmid`. -/
lemma runPending_cons_some (oracle : Int → Nat → AttemptOutcomes)
    (threshold : ℚ) (total : Nat) (co : ChapterOutline)
    (rest : List ChapterOutline) (cur : Nat) (w wmid : StoryWorkflow)
    (hc : (chapterLoop oracle threshold co cur total 4 w 0).2 = some wmid) :
    runPending oracle threshold total (co :: rest) cur w
      = ((chapterLoop oracle threshold co cur total 4 w 0).1
           ++ (runPending oracle threshold total rest (cur + 1) wmid).1,
         (runPending oracle threshold total rest (cur + 1) wmid).2) := by
  simp only [runPending, hc]

/-- Processing a pending list that starts with a fully handled prefix
first produces the prefix's events and state, then continues. -/
lemma runPending_append (oracle : Int → Nat → AttemptOutcomes)
    (threshold : ℚ) (total : Nat) :
    ∀ (l1 l2 : List ChapterOutline) (current : Nat) (w : StoryWorkflow)
      (es : List BatchEvent) (w1 : StoryWorkflow),
      runPending oracle threshold total l1 current w = (es, some w1) →
      runPending oracle threshold total (l1 ++ l2) current w =
        (es ++ (runPending oracle threshold total l2 (current + l1.length) w1).1,
         (runPending oracle threshold total l2 (current + l1.length) w1).2) := by
  intro l1
  induction l1 with
  | nil =>
    intro l2 cur w es w1 h
    simp only [runPending] at h
    injection h with h1 h2
    injection h2 with h2
    subst h1
    subst h2
    simp
  | cons co rest ih =>
    intro l2 cur w es w1 h
    cases hc : (chapterLoop oracle threshold co cur total 4 w 0).2 with
    | none =>
      rw [runPending_cons_none oracle threshold total co rest cur w hc] at h
      injection h with h1 h2
      simp at h2
    | some wmid =>
      rw [runPending_cons_some oracle threshold total co rest cur w wmid hc] at h
      injection h with h1 h2
      have hrest : runPending oracle threshold total rest (cur + 1) wmid
          = ((runPending oracle threshold total rest (cur + 1) wmid).1, some w1) := by
        rw [← h2]
      rw [List.cons_append,
        runPending_cons_some oracle threshold total co (rest ++ l2) cur w wmid hc,
        ih l2 (cur + 1) wmid _ w1 hrest, ← h1]
      have harith : cur + 1 + rest.length = cur + (co :: rest).length := by
        simp [List.length_cons]
        omega
      rw [harith, List.append_assoc]

/-! ## Claim C7 -/

/-- C7: in every batch run whose pending chapters split as
`pre ++ co :: post` where every chapter of `pre` completes (successfully
or with a warning) and chapter `co`'s generation fails on every attempt,
the stream is exactly the prefix events followed by `failBlock` —
`generating`/`retrying` pairs for the three non-final failures, one more
`generating`, then a single terminal `error` event — and nothing after it:
no event for any chapter of `post` and no `complete` event anywhere. -/
theorem c7_batch_abort_on_exhausted_failures
    (oracle : Int → Nat → AttemptOutcomes) (thr? : Option ℚ)
    (w : StoryWorkflow) (outl : StoryOutline)
    (pre post : List ChapterOutline) (co : ChapterOutline)
    (esPre : List BatchEvent) (w1 : StoryWorkflow)
    (hout : w.outline = some outl)
    (hpend : pendingChapters w outl = pre ++ co :: post)
    (hpre : runPending oracle (thr?.getD (7 / 10)) (pre ++ co :: post).length
        pre 1 w = (esPre, some w1))
    (hfail : ∀ a : Nat, (generate_chapter (oracle co.chapter_number a).gen1
        (oracle co.chapter_number a).gen2 (oracle co.chapter_number a).gen3
        (some w1) co.chapter_number).isOk = false) :
    generate_all_chapters_stream oracle thr? (some w)
      = .ok (esPre ++ failBlock co.chapter_number (pre.length + 1)
          (pre ++ co :: post).length)
    ∧ BatchEvent.batchComplete
        ∉ esPre ++ failBlock co.chapter_number (pre.length + 1)
            (pre ++ co :: post).length := by
  constructor
  · simp only [generate_all_chapters_stream, hout]
    rw [hpend]
    rw [if_neg (by simp)]
    rw [runPending_append oracle (thr?.getD (7 / 10)) (pre ++ co :: post).length
      pre (co :: post) 1 w esPre w1 hpre]
    rw [show (1 : Nat) + pre.length = pre.length + 1 from Nat.add_comm 1 pre.length]
    simp only [runPending]
    rw [chapterLoop_allFail oracle (thr?.getD (7 / 10)) co (pre.length + 1)
      (pre ++ co :: post).length w1 hfail]
  · intro hmem
    rw [List.mem_append] at hmem
    rcases hmem with hmem | hmem
    · have hno := runPending_no_complete oracle (thr?.getD (7 / 10))
        (pre ++ co :: post).length pre 1 w
      rw [hpre] at hno
      exact hno hmem
    · simp [failBlock] at hmem

/-- An outline chapter whose declared number (2) exceeds the outline's
length (1), so generating it always raises. -/
def coTwo : ChapterOutline :=
  { chapter_number := 2, title := "C2", summary := "s", purpose := "p" }

/-- The one-chapter outline containing only `coTwo`. -/
def outlBad : StoryOutline :=
  { title := "Bad", premise := "p", plot_structure := "x", chapters := [coTwo] }

/-- A post-outline workflow whose only pending chapter always fails to
generate. -/
def wBad : StoryWorkflow :=
  { id := "wf-bad", original_prompt := "p", characters := fallbackCharacters,
    settings := some fallbackSettings, outline := some outlBad,
    total_chapters_planned := 1, current_step := .chapterGeneration }

/-- An oracle giving every call the same successful reply. -/
def oracleConst : Int → Nat → AttemptOutcomes := fun _ _ =>
  { gen1 := okReply "a", gen2 := okReply "b", gen3 := okReply "c",
    validation := okReply "SCORE: 0.9" }

/-- C7 witness: the theorem applied to a concrete batch whose single
pending chapter fails generation at every attempt. -/
theorem c7_batch_abort_witness :
    generate_all_chapters_stream oracleConst none (some wBad)
      = .ok (failBlock 2 1 1) := by
  have h := c7_batch_abort_on_exhausted_failures oracleConst none wBad outlBad
    [] [] coTwo [] wBad rfl rfl rfl (fun _ => rfl)
  simpa using h.1

end StoryWriter
